import Mathlib

set_option maxRecDepth 4000

/-!
# Verification of the çarık toz calculator

Shallow embedding of `src/src/App.tsx`. Numeric values are modelled as exact
rationals (`ℚ`); the JavaScript `NaN` that the calculators explicitly test for
with `isNaN` is modelled by a dedicated constructor of `JSNum`. The React
component's state (`charikCount`, `altToz`, `ustToz`) and its event handlers,
together with the `useEffect` hook keyed on `charikCount`, are modelled as a
state machine whose step processes one user event to quiescence.
-/

/-- A number as received by the calculators: either `NaN` or a finite value. -/
inductive JSNum where
  | nan : JSNum
  | num : ℚ → JSNum
deriving DecidableEq

/-- The sanitization written at the entry of both calculators:
`isNaN(x) || x < 0 ? 0 : x`. -/
def sanitizeValue : JSNum → ℚ
  | JSNum.nan => 0
  | JSNum.num x => if x < 0 then 0 else x

/-- The `TozType` record of App.tsx: four components `a`–`d` plus `total`. -/
structure TozType where
  a : ℚ
  b : ℚ
  c : ℚ
  d : ℚ
  total : ℚ
deriving DecidableEq

/-- The shape of `ALT_PERCENTAGES` / `UST_PERCENTAGES`: one fraction per
component label. -/
structure Percentages where
  a : ℚ
  b : ℚ
  c : ℚ
  d : ℚ
deriving DecidableEq

/-- `const ALT_PERCENTAGES = { a: 0.5, b: 0.39, c: 0.06, d: 0.05 }`. -/
def ALT_PERCENTAGES : Percentages := { a := 0.5, b := 0.39, c := 0.06, d := 0.05 }

/-- `const ALT_TOTAL_PER_CHARIK = 121`. -/
def ALT_TOTAL_PER_CHARIK : ℚ := 121

/-- `const UST_PERCENTAGES = { a: 0.3, b: 0.6, c: 0.06, d: 0.04 }`. -/
def UST_PERCENTAGES : Percentages := { a := 0.3, b := 0.6, c := 0.06, d := 0.04 }

/-- `const UST_TOTAL_PER_CHARIK = 45`. -/
def UST_TOTAL_PER_CHARIK : ℚ := 45

/-- `keyof TozType`: the field identifiers a user edit can target. -/
inductive TozKey where
  | a | b | c | d | total
deriving DecidableEq

/-- The record indexing `percentages[changedKey]`. `calculateFromOneValue`
branches on `changedKey === "total"` before indexing, so the `total` case is
never consulted; it is set to 0 here. -/
def Percentages.lookup (p : Percentages) : TozKey → ℚ
  | TozKey.a => p.a
  | TozKey.b => p.b
  | TozKey.c => p.c
  | TozKey.d => p.d
  | TozKey.total => 0

/-- The record indexing `toz[k]` on a breakdown, used to state round-trip
properties about the edited field. -/
def TozType.lookup (t : TozType) : TozKey → ℚ
  | TozKey.a => t.a
  | TozKey.b => t.b
  | TozKey.c => t.c
  | TozKey.d => t.d
  | TozKey.total => t.total

/-- The record construction both calculators share:
`{ a: percentages.a * total, b: percentages.b * total, c: percentages.c * total,
   d: percentages.d * total, total }`. -/
def tozFromTotal (percentages : Percentages) (total : ℚ) : TozType :=
  { a := percentages.a * total
    b := percentages.b * total
    c := percentages.c * total
    d := percentages.d * total
    total := total }

/-- `calculateFromCharikCount(count, percentages, totalPerCharik)`:
sanitize the count, take `total = totalPerCharik * validCount`, distribute by
the percentage set. -/
def calculateFromCharikCount (count : JSNum) (percentages : Percentages)
    (totalPerCharik : ℚ) : TozType :=
  tozFromTotal percentages (totalPerCharik * sanitizeValue count)

/-- The return record `{ toz, charikCount }` of `calculateFromOneValue`. -/
structure InverseResult where
  toz : TozType
  charikCount : ℚ
deriving DecidableEq

/-- The `total` local of `calculateFromOneValue`: the sanitized value itself
when the edited key is `total`, otherwise
`percentages[changedKey] !== 0 ? validChangedValue / percentages[changedKey] : 0`. -/
def resolvedTotal (changedKey : TozKey) (changedValue : JSNum)
    (percentages : Percentages) : ℚ :=
  if changedKey = TozKey.total then sanitizeValue changedValue
  else if percentages.lookup changedKey ≠ 0 then
    sanitizeValue changedValue / percentages.lookup changedKey
  else 0

/-- `calculateFromOneValue(changedKey, changedValue, percentages,
totalPerCharikRef)`: resolve the total from the one edited field, recompute all
four components from it, and derive the charik count as
`totalPerCharikRef !== 0 ? total / totalPerCharikRef : 0`. -/
def calculateFromOneValue (changedKey : TozKey) (changedValue : JSNum)
    (percentages : Percentages) (totalPerCharikRef : ℚ) : InverseResult :=
  { toz := tozFromTotal percentages (resolvedTotal changedKey changedValue percentages)
    charikCount :=
      if totalPerCharikRef ≠ 0 then
        resolvedTotal changedKey changedValue percentages / totalPerCharikRef
      else 0 }

/-- The App component's state triple: `charikCount`, `altToz`, `ustToz`. -/
structure AppState where
  charikCount : ℚ
  altToz : TozType
  ustToz : TozType
deriving DecidableEq

/-- The `useState` initializers: count 1 and both breakdowns forward-computed
from 1. -/
def initState : AppState :=
  { charikCount := 1
    altToz := calculateFromCharikCount (JSNum.num 1) ALT_PERCENTAGES ALT_TOTAL_PER_CHARIK
    ustToz := calculateFromCharikCount (JSNum.num 1) UST_PERCENTAGES UST_TOTAL_PER_CHARIK }

/-- The `useEffect(..., [charikCount])` hook: after a handler commits, the
effect re-runs exactly when the committed `charikCount` differs from the
previous render's value, and then forward-recomputes both breakdowns from the
committed count. -/
def runCharikEffect (prev : ℚ) (s : AppState) : AppState :=
  if s.charikCount = prev then s
  else
    { s with
        altToz := calculateFromCharikCount (JSNum.num s.charikCount)
          ALT_PERCENTAGES ALT_TOTAL_PER_CHARIK
        ustToz := calculateFromCharikCount (JSNum.num s.charikCount)
          UST_PERCENTAGES UST_TOTAL_PER_CHARIK }

/-- `handleCharikChange`: `const newValue = isNaN(value) ? 0 : value;
setCharikCount(Math.max(1, newValue))`. -/
def handleCharikChange (s : AppState) (value : JSNum) : AppState :=
  { s with charikCount := max 1 (match value with | JSNum.nan => 0 | JSNum.num x => x) }

/-- `handleAltChange`: run the inverse calculator with the Alt constants, store
the clamped implied count and the returned breakdown. -/
def handleAltChange (s : AppState) (key : TozKey) (value : JSNum) : AppState :=
  { s with
      charikCount :=
        max 1 (calculateFromOneValue key value ALT_PERCENTAGES ALT_TOTAL_PER_CHARIK).charikCount
      altToz := (calculateFromOneValue key value ALT_PERCENTAGES ALT_TOTAL_PER_CHARIK).toz }

/-- `handleUstChange`: run the inverse calculator with the Üst constants, store
the clamped implied count and the returned breakdown. -/
def handleUstChange (s : AppState) (key : TozKey) (value : JSNum) : AppState :=
  { s with
      charikCount :=
        max 1 (calculateFromOneValue key value UST_PERCENTAGES UST_TOTAL_PER_CHARIK).charikCount
      ustToz := (calculateFromOneValue key value UST_PERCENTAGES UST_TOTAL_PER_CHARIK).toz }

/-- `handleReset`: `setCharikCount(1)`. -/
def handleReset (s : AppState) : AppState :=
  { s with charikCount := 1 }

/-- The discrete user events the component reacts to. -/
inductive Event where
  | charikChange (value : JSNum)
  | altChange (key : TozKey) (value : JSNum)
  | ustChange (key : TozKey) (value : JSNum)
  | reset
deriving DecidableEq

/-- One user event processed to quiescence: the handler's state updates,
followed by the `useEffect` keyed on `charikCount` (which does not re-fire
afterwards, since the effect never changes `charikCount` itself). -/
def processEvent (s : AppState) : Event → AppState
  | Event.charikChange value => runCharikEffect s.charikCount (handleCharikChange s value)
  | Event.altChange key value => runCharikEffect s.charikCount (handleAltChange s key value)
  | Event.ustChange key value => runCharikEffect s.charikCount (handleUstChange s key value)
  | Event.reset => runCharikEffect s.charikCount (handleReset s)

/-- States reachable from the initial state by user events. -/
inductive Reachable : AppState → Prop where
  | init : Reachable initState
  | next {s : AppState} (e : Event) : Reachable s → Reachable (processEvent s e)

/-! ## Helper lemmas -/

lemma sanitizeValue_nonneg (v : JSNum) : 0 ≤ sanitizeValue v := by
  cases v with
  | nan => exact le_refl 0
  | num x =>
      simp only [sanitizeValue]
      split_ifs with h
      · exact le_refl 0
      · exact le_of_not_lt h

lemma sanitizeValue_of_nonneg {x : ℚ} (hx : 0 ≤ x) : sanitizeValue (JSNum.num x) = x := by
  simp only [sanitizeValue]
  exact if_neg (not_lt.mpr hx)

lemma lookup_nonneg {p : Percentages} (ha : 0 ≤ p.a) (hb : 0 ≤ p.b) (hc : 0 ≤ p.c)
    (hd : 0 ≤ p.d) (k : TozKey) : 0 ≤ p.lookup k := by
  cases k with
  | a => exact ha
  | b => exact hb
  | c => exact hc
  | d => exact hd
  | total => exact le_refl 0

lemma resolvedTotal_nonneg (k : TozKey) (v : JSNum) {p : Percentages}
    (ha : 0 ≤ p.a) (hb : 0 ≤ p.b) (hc : 0 ≤ p.c) (hd : 0 ≤ p.d) :
    0 ≤ resolvedTotal k v p := by
  unfold resolvedTotal
  split_ifs with h1 h2
  · exact sanitizeValue_nonneg v
  · exact div_nonneg (sanitizeValue_nonneg v) (lookup_nonneg ha hb hc hd k)
  · exact le_refl 0

lemma forward_of_inverse (k : TozKey) (v : JSNum) {p : Percentages} {T : ℚ}
    (ha : 0 ≤ p.a) (hb : 0 ≤ p.b) (hc : 0 ≤ p.c) (hd : 0 ≤ p.d) (hT : 0 < T) :
    calculateFromCharikCount (JSNum.num (calculateFromOneValue k v p T).charikCount) p T
      = (calculateFromOneValue k v p T).toz := by
  have hT0 : T ≠ 0 := ne_of_gt hT
  have ht : 0 ≤ resolvedTotal k v p := resolvedTotal_nonneg k v ha hb hc hd
  show tozFromTotal p (T * sanitizeValue (JSNum.num
      (if T ≠ 0 then resolvedTotal k v p / T else 0)))
    = tozFromTotal p (resolvedTotal k v p)
  rw [if_pos hT0, sanitizeValue_of_nonneg (div_nonneg ht hT.le), mul_comm,
    div_mul_cancel₀ _ hT0]

lemma tozFromTotal_sum {p : Percentages} (hsum : p.a + p.b + p.c + p.d = 1) (t : ℚ) :
    (tozFromTotal p t).a + (tozFromTotal p t).b + (tozFromTotal p t).c
        + (tozFromTotal p t).d
      = (tozFromTotal p t).total := by
  show p.a * t + p.b * t + p.c * t + p.d * t = t
  calc p.a * t + p.b * t + p.c * t + p.d * t = (p.a + p.b + p.c + p.d) * t := by ring
  _ = 1 * t := by rw [hsum]
  _ = t := one_mul t

lemma inverse_b78_alt :
    calculateFromOneValue TozKey.b (JSNum.num 78) ALT_PERCENTAGES ALT_TOTAL_PER_CHARIK
      = { toz := { a := 100, b := 78, c := 12, d := 10, total := 200 },
          charikCount := 200 / 121 } := by
  simp [calculateFromOneValue, resolvedTotal, tozFromTotal, sanitizeValue,
    Percentages.lookup, ALT_PERCENTAGES, ALT_TOTAL_PER_CHARIK]
  norm_num

lemma runCharikEffect_eq {prev : ℚ} {s : AppState} (h : s.charikCount = prev) :
    runCharikEffect prev s = s := by
  unfold runCharikEffect
  rw [if_pos h]

lemma runCharikEffect_ne {prev : ℚ} {s : AppState} (h : s.charikCount ≠ prev) :
    runCharikEffect prev s
      = { s with
          altToz := calculateFromCharikCount (JSNum.num s.charikCount)
            ALT_PERCENTAGES ALT_TOTAL_PER_CHARIK
          ustToz := calculateFromCharikCount (JSNum.num s.charikCount)
            UST_PERCENTAGES UST_TOTAL_PER_CHARIK } := by
  unfold runCharikEffect
  rw [if_neg h]

/-! ## Claim theorems -/

/-- C1: the inverse calculator sanitizes the edited value (NaN and negative
inputs become 0), resolves the total as the sanitized value itself for the
`total` key and otherwise as sanitized value divided by the edited field's
weight — with the resolved total exactly 0 when that weight is 0, never an
infinity or NaN — and returns the implied charik count as resolved total
divided by the unit-total constant, defined as 0 when that constant is 0. -/
theorem C1_inverse_resolution (k : TozKey) (v : JSNum) (p : Percentages) (T : ℚ) :
    (calculateFromOneValue k v p T).toz.total
        = (if k = TozKey.total then sanitizeValue v
           else if p.lookup k = 0 then 0 else sanitizeValue v / p.lookup k) ∧
    (calculateFromOneValue k v p T).charikCount
        = (if T = 0 then 0 else (calculateFromOneValue k v p T).toz.total / T) ∧
    sanitizeValue JSNum.nan = 0 ∧
    (∀ x : ℚ, x < 0 → sanitizeValue (JSNum.num x) = 0) ∧
    (∀ x : ℚ, 0 ≤ x → sanitizeValue (JSNum.num x) = x) := by
  refine ⟨?_, ?_, rfl, ?_, ?_⟩
  · show resolvedTotal k v p = _
    unfold resolvedTotal
    by_cases hk : k = TozKey.total
    · rw [if_pos hk, if_pos hk]
    · rw [if_neg hk, if_neg hk]
      by_cases hw : p.lookup k = 0
      · rw [if_neg (not_not_intro hw), if_pos hw]
      · rw [if_pos hw, if_neg hw]
  · show (if T ≠ 0 then resolvedTotal k v p / T else 0) = _
    by_cases hT : T = 0
    · rw [if_neg (not_not_intro hT), if_pos hT]
    · rw [if_pos hT, if_neg hT]
      rfl
  · intro x hx
    simp only [sanitizeValue]
    exact if_pos hx
  · intro x hx
    exact sanitizeValue_of_nonneg hx

/-- Witness for C1: the sanitize clauses at −3 and 3, and the resolution
equation at key `b` with the Alt constants. -/
theorem C1_inverse_resolution_witness :
    sanitizeValue (JSNum.num (-3)) = 0 ∧ sanitizeValue (JSNum.num 3) = 3 ∧
    (calculateFromOneValue TozKey.b (JSNum.num (-3)) ALT_PERCENTAGES
        ALT_TOTAL_PER_CHARIK).toz.total
      = (if TozKey.b = TozKey.total then sanitizeValue (JSNum.num (-3))
         else if ALT_PERCENTAGES.lookup TozKey.b = 0 then 0
         else sanitizeValue (JSNum.num (-3)) / ALT_PERCENTAGES.lookup TozKey.b) :=
  ⟨(C1_inverse_resolution TozKey.b (JSNum.num (-3)) ALT_PERCENTAGES
      ALT_TOTAL_PER_CHARIK).2.2.2.1 (-3) (by norm_num),
   (C1_inverse_resolution TozKey.b (JSNum.num 3) ALT_PERCENTAGES
      ALT_TOTAL_PER_CHARIK).2.2.2.2 3 (by norm_num),
   (C1_inverse_resolution TozKey.b (JSNum.num (-3)) ALT_PERCENTAGES
      ALT_TOTAL_PER_CHARIK).1⟩

/-- C2: the forward calculator sanitizes the count (NaN and negative inputs
become 0), returns a breakdown whose total is the unit-total constant times the
sanitized count and whose each component is its weight times that total, and is
total — it returns a value on every input. -/
theorem C2_forward_contract (n : JSNum) (p : Percentages) (T : ℚ) :
    (calculateFromCharikCount n p T).total = T * sanitizeValue n ∧
    (calculateFromCharikCount n p T).a = p.a * (calculateFromCharikCount n p T).total ∧
    (calculateFromCharikCount n p T).b = p.b * (calculateFromCharikCount n p T).total ∧
    (calculateFromCharikCount n p T).c = p.c * (calculateFromCharikCount n p T).total ∧
    (calculateFromCharikCount n p T).d = p.d * (calculateFromCharikCount n p T).total ∧
    calculateFromCharikCount JSNum.nan p T = calculateFromCharikCount (JSNum.num 0) p T ∧
    ∀ x : ℚ, x < 0 →
      calculateFromCharikCount (JSNum.num x) p T
        = calculateFromCharikCount (JSNum.num 0) p T := by
  refine ⟨rfl, rfl, rfl, rfl, rfl, ?_, ?_⟩
  · show tozFromTotal p (T * sanitizeValue JSNum.nan)
        = tozFromTotal p (T * sanitizeValue (JSNum.num 0))
    rw [show sanitizeValue JSNum.nan = sanitizeValue (JSNum.num 0) from by
      norm_num [sanitizeValue]]
  · intro x hx
    show tozFromTotal p (T * sanitizeValue (JSNum.num x))
        = tozFromTotal p (T * sanitizeValue (JSNum.num 0))
    rw [show sanitizeValue (JSNum.num x) = sanitizeValue (JSNum.num 0) from by
      norm_num [sanitizeValue, hx]]

/-- Witness for C2: a negative count (−5) computes as 0, and the total equation
at count 2 with the Alt constants. -/
theorem C2_forward_contract_witness :
    calculateFromCharikCount (JSNum.num (-5)) ALT_PERCENTAGES ALT_TOTAL_PER_CHARIK
      = calculateFromCharikCount (JSNum.num 0) ALT_PERCENTAGES ALT_TOTAL_PER_CHARIK ∧
    (calculateFromCharikCount (JSNum.num 2) ALT_PERCENTAGES ALT_TOTAL_PER_CHARIK).total
      = ALT_TOTAL_PER_CHARIK * sanitizeValue (JSNum.num 2) :=
  ⟨(C2_forward_contract (JSNum.num (-5)) ALT_PERCENTAGES
      ALT_TOTAL_PER_CHARIK).2.2.2.2.2.2 (-5) (by norm_num),
   (C2_forward_contract (JSNum.num 2) ALT_PERCENTAGES ALT_TOTAL_PER_CHARIK).1⟩

/-- C5: for every weight set whose four fractions sum to 1, both the forward
calculator's breakdown and the inverse calculator's breakdown satisfy
`a + b + c + d = total` exactly; and both fixed weight sets do sum to 1. -/
theorem C5_components_sum (p : Percentages) (T : ℚ)
    (hsum : p.a + p.b + p.c + p.d = 1) :
    (∀ n : JSNum,
      (calculateFromCharikCount n p T).a + (calculateFromCharikCount n p T).b
          + (calculateFromCharikCount n p T).c + (calculateFromCharikCount n p T).d
        = (calculateFromCharikCount n p T).total) ∧
    (∀ (k : TozKey) (v : JSNum),
      (calculateFromOneValue k v p T).toz.a + (calculateFromOneValue k v p T).toz.b
          + (calculateFromOneValue k v p T).toz.c + (calculateFromOneValue k v p T).toz.d
        = (calculateFromOneValue k v p T).toz.total) ∧
    ALT_PERCENTAGES.a + ALT_PERCENTAGES.b + ALT_PERCENTAGES.c + ALT_PERCENTAGES.d = 1 ∧
    UST_PERCENTAGES.a + UST_PERCENTAGES.b + UST_PERCENTAGES.c + UST_PERCENTAGES.d = 1 := by
  refine ⟨fun n => tozFromTotal_sum hsum _, fun k v => tozFromTotal_sum hsum _, ?_, ?_⟩
  · norm_num [ALT_PERCENTAGES]
  · norm_num [UST_PERCENTAGES]

/-- Witness for C5: the Alt weight set sums to 1, and the forward breakdown at
count 2 satisfies the sum invariant. -/
theorem C5_components_sum_witness :
    (calculateFromCharikCount (JSNum.num 2) ALT_PERCENTAGES ALT_TOTAL_PER_CHARIK).a
        + (calculateFromCharikCount (JSNum.num 2) ALT_PERCENTAGES ALT_TOTAL_PER_CHARIK).b
        + (calculateFromCharikCount (JSNum.num 2) ALT_PERCENTAGES ALT_TOTAL_PER_CHARIK).c
        + (calculateFromCharikCount (JSNum.num 2) ALT_PERCENTAGES ALT_TOTAL_PER_CHARIK).d
      = (calculateFromCharikCount (JSNum.num 2) ALT_PERCENTAGES ALT_TOTAL_PER_CHARIK).total :=
  (C5_components_sum ALT_PERCENTAGES ALT_TOTAL_PER_CHARIK
      (by norm_num [ALT_PERCENTAGES])).1 (JSNum.num 2)

/-- C6 fails as stated: with the Alt weight set and unit-total constant −1, the
forward total at count 1 is −1, which the inverse calculator sanitizes to 0, so
the round-trip does not reproduce the forward breakdown. -/
theorem C6_roundtrip_counterexample :
    (calculateFromOneValue TozKey.total
        (JSNum.num ((calculateFromCharikCount (JSNum.num 1) ALT_PERCENTAGES (-1)).total))
        ALT_PERCENTAGES (-1)).toz
      ≠ calculateFromCharikCount (JSNum.num 1) ALT_PERCENTAGES (-1) := by
  intro h
  have h2 := congrArg TozType.total h
  show False
  rw [show (calculateFromOneValue TozKey.total
        (JSNum.num ((calculateFromCharikCount (JSNum.num 1) ALT_PERCENTAGES (-1)).total))
        ALT_PERCENTAGES (-1)).toz.total
      = sanitizeValue (JSNum.num ((-1) * sanitizeValue (JSNum.num 1))) from rfl,
    show (calculateFromCharikCount (JSNum.num 1) ALT_PERCENTAGES (-1)).total
      = (-1) * sanitizeValue (JSNum.num 1) from rfl] at h2
  rw [sanitizeValue_of_nonneg (by norm_num : (0:ℚ) ≤ 1)] at h2
  norm_num [sanitizeValue] at h2

/-- C6 amended: the round trip `inverse("total", forward(n).total).toz =
forward(n)` holds for every weight set once the unit-total constant is
nonnegative (as both of the program's constants are); a negative constant makes
the forward total negative, which the inverse calculator sanitizes away. -/
theorem C6_roundtrip_amended (n T : ℚ) (p : Percentages) (hn : 0 ≤ n) (hT : 0 ≤ T) :
    (calculateFromOneValue TozKey.total
        (JSNum.num ((calculateFromCharikCount (JSNum.num n) p T).total)) p T).toz
      = calculateFromCharikCount (JSNum.num n) p T := by
  have h1 : (calculateFromCharikCount (JSNum.num n) p T).total = T * n := by
    show T * sanitizeValue (JSNum.num n) = T * n
    rw [sanitizeValue_of_nonneg hn]
  show tozFromTotal p (resolvedTotal TozKey.total
      (JSNum.num ((calculateFromCharikCount (JSNum.num n) p T).total)) p)
    = calculateFromCharikCount (JSNum.num n) p T
  simp only [resolvedTotal, if_pos rfl]
  rw [h1, sanitizeValue_of_nonneg (mul_nonneg hT hn)]
  show tozFromTotal p (T * n) = tozFromTotal p (T * sanitizeValue (JSNum.num n))
  rw [sanitizeValue_of_nonneg hn]

/-- Witness for C6 amended: the round trip at count 2 with the Alt constants. -/
theorem C6_roundtrip_amended_witness :
    (calculateFromOneValue TozKey.total
        (JSNum.num ((calculateFromCharikCount (JSNum.num 2) ALT_PERCENTAGES
          ALT_TOTAL_PER_CHARIK).total)) ALT_PERCENTAGES ALT_TOTAL_PER_CHARIK).toz
      = calculateFromCharikCount (JSNum.num 2) ALT_PERCENTAGES ALT_TOTAL_PER_CHARIK :=
  C6_roundtrip_amended 2 ALT_TOTAL_PER_CHARIK ALT_PERCENTAGES (by norm_num)
    (by norm_num [ALT_TOTAL_PER_CHARIK])

/-- C7: the inverse calculator reproduces the edited value: editing `total` to
`v ≥ 0` gives a breakdown with total exactly `v`, and editing a component field
with nonzero weight to `v ≥ 0` gives a breakdown whose that component is
exactly `v` (exact in rational arithmetic). -/
theorem C7_edit_value_reproduced (v : ℚ) (p : Percentages) (T : ℚ) (hv : 0 ≤ v) :
    (calculateFromOneValue TozKey.total (JSNum.num v) p T).toz.total = v ∧
    ∀ k : TozKey, k ≠ TozKey.total → p.lookup k ≠ 0 →
      TozType.lookup (calculateFromOneValue k (JSNum.num v) p T).toz k = v := by
  constructor
  · show resolvedTotal TozKey.total (JSNum.num v) p = v
    simp only [resolvedTotal, if_pos rfl]
    exact sanitizeValue_of_nonneg hv
  · intro k hk hw
    have ht : resolvedTotal k (JSNum.num v) p = v / p.lookup k := by
      simp only [resolvedTotal]
      rw [if_neg hk, if_pos hw, sanitizeValue_of_nonneg hv]
    cases k with
    | total => exact absurd rfl hk
    | a =>
        have hl : Percentages.lookup p TozKey.a = p.a := rfl
        rw [hl] at ht hw
        show p.a * resolvedTotal TozKey.a (JSNum.num v) p = v
        rw [ht, mul_comm, div_mul_cancel₀ v hw]
    | b =>
        have hl : Percentages.lookup p TozKey.b = p.b := rfl
        rw [hl] at ht hw
        show p.b * resolvedTotal TozKey.b (JSNum.num v) p = v
        rw [ht, mul_comm, div_mul_cancel₀ v hw]
    | c =>
        have hl : Percentages.lookup p TozKey.c = p.c := rfl
        rw [hl] at ht hw
        show p.c * resolvedTotal TozKey.c (JSNum.num v) p = v
        rw [ht, mul_comm, div_mul_cancel₀ v hw]
    | d =>
        have hl : Percentages.lookup p TozKey.d = p.d := rfl
        rw [hl] at ht hw
        show p.d * resolvedTotal TozKey.d (JSNum.num v) p = v
        rw [ht, mul_comm, div_mul_cancel₀ v hw]

/-- Witness for C7: editing `total` to 78 and editing `b` to 78 with the Alt
constants both reproduce 78. -/
theorem C7_edit_value_reproduced_witness :
    (calculateFromOneValue TozKey.total (JSNum.num 78) ALT_PERCENTAGES
        ALT_TOTAL_PER_CHARIK).toz.total = 78 ∧
    TozType.lookup (calculateFromOneValue TozKey.b (JSNum.num 78) ALT_PERCENTAGES
        ALT_TOTAL_PER_CHARIK).toz TozKey.b = 78 :=
  ⟨(C7_edit_value_reproduced 78 ALT_PERCENTAGES ALT_TOTAL_PER_CHARIK (by norm_num)).1,
   (C7_edit_value_reproduced 78 ALT_PERCENTAGES ALT_TOTAL_PER_CHARIK (by norm_num)).2
     TozKey.b (by decide) (by norm_num [Percentages.lookup, ALT_PERCENTAGES])⟩

/-- C8: editing component `b` of the Alt breakdown (weights
{0.50, 0.39, 0.06, 0.05}, unit-total 121) to 78 yields exactly total 200,
components 100, 78, 12, 10, and implied charik count 200/121, which is already
at least 1 so clamping leaves it unchanged. -/
theorem C8_concrete_edit :
    calculateFromOneValue TozKey.b (JSNum.num 78) ALT_PERCENTAGES ALT_TOTAL_PER_CHARIK
      = { toz := { a := 100, b := 78, c := 12, d := 10, total := 200 },
          charikCount := 200 / 121 }
    ∧ max 1 (200 / 121 : ℚ) = 200 / 121 :=
  ⟨inverse_b78_alt, max_eq_right (by norm_num)⟩

/-- C3 fails as stated: from the initial state, editing Alt component `b` to 78
changes the committed charik count from 1 to 200/121, so the `useEffect` keyed
on `charikCount` re-runs and forward-recomputes the Üst breakdown too — it is
not left unchanged. -/
theorem C3_edit_frame_counterexample :
    (processEvent initState (Event.altChange TozKey.b (JSNum.num 78))).ustToz
      ≠ initState.ustToz := by
  simp [processEvent, initState, handleAltChange, runCharikEffect,
    calculateFromOneValue, calculateFromCharikCount, resolvedTotal, tozFromTotal,
    sanitizeValue, Percentages.lookup, ALT_PERCENTAGES, ALT_TOTAL_PER_CHARIK,
    UST_PERCENTAGES, UST_TOTAL_PER_CHARIK]
  norm_num

/-- C3 amended: after editing one field of breakdown A, if the clamped implied
count equals the prior count the effect does not re-run, so A shows exactly the
inverse calculator's breakdown and B is unchanged; if it differs, the effect
forward-recomputes both breakdowns from the clamped count — B is therefore
updated, and A still equals the inverse breakdown whenever the implied count
was at least 1 (so clamping was a no-op). -/
theorem C3_edit_frame_amended (s : AppState) (k : TozKey) (v : JSNum) :
    ((max 1 (calculateFromOneValue k v ALT_PERCENTAGES ALT_TOTAL_PER_CHARIK).charikCount
          = s.charikCount →
        (processEvent s (Event.altChange k v)).altToz
            = (calculateFromOneValue k v ALT_PERCENTAGES ALT_TOTAL_PER_CHARIK).toz ∧
        (processEvent s (Event.altChange k v)).ustToz = s.ustToz) ∧
      (max 1 (calculateFromOneValue k v ALT_PERCENTAGES ALT_TOTAL_PER_CHARIK).charikCount
          ≠ s.charikCount →
        (processEvent s (Event.altChange k v)).ustToz
            = calculateFromCharikCount
                (JSNum.num (max 1 (calculateFromOneValue k v ALT_PERCENTAGES
                  ALT_TOTAL_PER_CHARIK).charikCount))
                UST_PERCENTAGES UST_TOTAL_PER_CHARIK ∧
        (1 ≤ (calculateFromOneValue k v ALT_PERCENTAGES ALT_TOTAL_PER_CHARIK).charikCount →
          (processEvent s (Event.altChange k v)).altToz
              = (calculateFromOneValue k v ALT_PERCENTAGES ALT_TOTAL_PER_CHARIK).toz))) ∧
    ((max 1 (calculateFromOneValue k v UST_PERCENTAGES UST_TOTAL_PER_CHARIK).charikCount
          = s.charikCount →
        (processEvent s (Event.ustChange k v)).ustToz
            = (calculateFromOneValue k v UST_PERCENTAGES UST_TOTAL_PER_CHARIK).toz ∧
        (processEvent s (Event.ustChange k v)).altToz = s.altToz) ∧
      (max 1 (calculateFromOneValue k v UST_PERCENTAGES UST_TOTAL_PER_CHARIK).charikCount
          ≠ s.charikCount →
        (processEvent s (Event.ustChange k v)).altToz
            = calculateFromCharikCount
                (JSNum.num (max 1 (calculateFromOneValue k v UST_PERCENTAGES
                  UST_TOTAL_PER_CHARIK).charikCount))
                ALT_PERCENTAGES ALT_TOTAL_PER_CHARIK ∧
        (1 ≤ (calculateFromOneValue k v UST_PERCENTAGES UST_TOTAL_PER_CHARIK).charikCount →
          (processEvent s (Event.ustChange k v)).ustToz
              = (calculateFromOneValue k v UST_PERCENTAGES UST_TOTAL_PER_CHARIK).toz))) := by
  refine ⟨⟨?_, ?_⟩, ⟨?_, ?_⟩⟩
  · intro h
    have he : processEvent s (Event.altChange k v) = handleAltChange s k v :=
      runCharikEffect_eq (show (handleAltChange s k v).charikCount = s.charikCount from h)
    rw [he]
    exact ⟨rfl, rfl⟩
  · intro h
    have he : processEvent s (Event.altChange k v)
        = { handleAltChange s k v with
            altToz := calculateFromCharikCount
              (JSNum.num (handleAltChange s k v).charikCount)
              ALT_PERCENTAGES ALT_TOTAL_PER_CHARIK
            ustToz := calculateFromCharikCount
              (JSNum.num (handleAltChange s k v).charikCount)
              UST_PERCENTAGES UST_TOTAL_PER_CHARIK } :=
      runCharikEffect_ne (show (handleAltChange s k v).charikCount ≠ s.charikCount from h)
    rw [he]
    refine ⟨rfl, fun h1 => ?_⟩
    show calculateFromCharikCount
        (JSNum.num (max 1 (calculateFromOneValue k v ALT_PERCENTAGES
          ALT_TOTAL_PER_CHARIK).charikCount)) ALT_PERCENTAGES ALT_TOTAL_PER_CHARIK
      = (calculateFromOneValue k v ALT_PERCENTAGES ALT_TOTAL_PER_CHARIK).toz
    rw [max_eq_right h1]
    exact forward_of_inverse k v (by norm_num [ALT_PERCENTAGES])
      (by norm_num [ALT_PERCENTAGES]) (by norm_num [ALT_PERCENTAGES])
      (by norm_num [ALT_PERCENTAGES]) (by norm_num [ALT_TOTAL_PER_CHARIK])
  · intro h
    have he : processEvent s (Event.ustChange k v) = handleUstChange s k v :=
      runCharikEffect_eq (show (handleUstChange s k v).charikCount = s.charikCount from h)
    rw [he]
    exact ⟨rfl, rfl⟩
  · intro h
    have he : processEvent s (Event.ustChange k v)
        = { handleUstChange s k v with
            altToz := calculateFromCharikCount
              (JSNum.num (handleUstChange s k v).charikCount)
              ALT_PERCENTAGES ALT_TOTAL_PER_CHARIK
            ustToz := calculateFromCharikCount
              (JSNum.num (handleUstChange s k v).charikCount)
              UST_PERCENTAGES UST_TOTAL_PER_CHARIK } :=
      runCharikEffect_ne (show (handleUstChange s k v).charikCount ≠ s.charikCount from h)
    rw [he]
    refine ⟨rfl, fun h1 => ?_⟩
    show calculateFromCharikCount
        (JSNum.num (max 1 (calculateFromOneValue k v UST_PERCENTAGES
          UST_TOTAL_PER_CHARIK).charikCount)) UST_PERCENTAGES UST_TOTAL_PER_CHARIK
      = (calculateFromOneValue k v UST_PERCENTAGES UST_TOTAL_PER_CHARIK).toz
    rw [max_eq_right h1]
    exact forward_of_inverse k v (by norm_num [UST_PERCENTAGES])
      (by norm_num [UST_PERCENTAGES]) (by norm_num [UST_PERCENTAGES])
      (by norm_num [UST_PERCENTAGES]) (by norm_num [UST_TOTAL_PER_CHARIK])

/-- Witness for C3 amended: editing Alt `b` to 78 from the initial state takes
the effect-refiring branch; the Üst breakdown is forward-recomputed from the
clamped count and the Alt breakdown equals the inverse breakdown. -/
theorem C3_edit_frame_amended_witness :
    (processEvent initState (Event.altChange TozKey.b (JSNum.num 78))).ustToz
        = calculateFromCharikCount
            (JSNum.num (max 1 (calculateFromOneValue TozKey.b (JSNum.num 78)
              ALT_PERCENTAGES ALT_TOTAL_PER_CHARIK).charikCount))
            UST_PERCENTAGES UST_TOTAL_PER_CHARIK ∧
    (processEvent initState (Event.altChange TozKey.b (JSNum.num 78))).altToz
        = (calculateFromOneValue TozKey.b (JSNum.num 78) ALT_PERCENTAGES
            ALT_TOTAL_PER_CHARIK).toz := by
  have h := (C3_edit_frame_amended initState TozKey.b (JSNum.num 78)).1.2 (by
    rw [inverse_b78_alt]
    show max 1 (200 / 121 : ℚ) ≠ 1
    rw [max_eq_right (by norm_num : (1:ℚ) ≤ 200 / 121)]
    norm_num)
  refine ⟨h.1, h.2 (by
    rw [inverse_b78_alt]
    show (1:ℚ) ≤ 200 / 121
    norm_num)⟩

/-- C4 fails as stated: editing Alt `total` to 0 leaves the clamped count at 1,
so that state is reachable with an all-zero Alt breakdown; resetting from it
sets the count to 1 again, the effect does not re-run, and the breakdowns are
not forward-recomputed from count 1. -/
theorem C4_reset_counterexample :
    Reachable (processEvent initState (Event.altChange TozKey.total (JSNum.num 0))) ∧
    (processEvent (processEvent initState (Event.altChange TozKey.total (JSNum.num 0)))
        Event.reset).altToz
      ≠ calculateFromCharikCount (JSNum.num 1) ALT_PERCENTAGES ALT_TOTAL_PER_CHARIK := by
  constructor
  · exact Reachable.next _ Reachable.init
  · simp [processEvent, initState, handleAltChange, handleReset, runCharikEffect,
      calculateFromOneValue, calculateFromCharikCount, resolvedTotal, tozFromTotal,
      sanitizeValue, Percentages.lookup, ALT_PERCENTAGES, ALT_TOTAL_PER_CHARIK,
      UST_PERCENTAGES, UST_TOTAL_PER_CHARIK]
    norm_num

/-- C4 amended: reset always sets the charik count to 1; when the prior count
differed from 1 the effect re-runs and both breakdowns equal the forward
computation from count 1, but when the prior count was already 1 the effect
does not re-run and both breakdowns are left exactly as they were. -/
theorem C4_reset_amended (s : AppState) :
    (processEvent s Event.reset).charikCount = 1 ∧
    (s.charikCount ≠ 1 →
      (processEvent s Event.reset).altToz
          = calculateFromCharikCount (JSNum.num 1) ALT_PERCENTAGES ALT_TOTAL_PER_CHARIK ∧
      (processEvent s Event.reset).ustToz
          = calculateFromCharikCount (JSNum.num 1) UST_PERCENTAGES UST_TOTAL_PER_CHARIK) ∧
    (s.charikCount = 1 →
      (processEvent s Event.reset).altToz = s.altToz ∧
      (processEvent s Event.reset).ustToz = s.ustToz) := by
  by_cases h : (1:ℚ) = s.charikCount
  · have he : processEvent s Event.reset = handleReset s :=
      runCharikEffect_eq (show (handleReset s).charikCount = s.charikCount from h)
    rw [he]
    exact ⟨rfl, fun hne => absurd h.symm hne, fun _ => ⟨rfl, rfl⟩⟩
  · have he : processEvent s Event.reset
        = { handleReset s with
            altToz := calculateFromCharikCount (JSNum.num (handleReset s).charikCount)
              ALT_PERCENTAGES ALT_TOTAL_PER_CHARIK
            ustToz := calculateFromCharikCount (JSNum.num (handleReset s).charikCount)
              UST_PERCENTAGES UST_TOTAL_PER_CHARIK } :=
      runCharikEffect_ne (show (handleReset s).charikCount ≠ s.charikCount from h)
    rw [he]
    exact ⟨rfl, fun _ => ⟨rfl, rfl⟩, fun heq => absurd heq.symm h⟩

/-- Witness for C4 amended: resetting from a state with count 2 yields count 1
and the Alt breakdown forward-computed from 1. -/
theorem C4_reset_amended_witness :
    (processEvent { initState with charikCount := 2 } Event.reset).charikCount = 1 ∧
    (processEvent { initState with charikCount := 2 } Event.reset).altToz
      = calculateFromCharikCount (JSNum.num 1) ALT_PERCENTAGES ALT_TOTAL_PER_CHARIK := by
  refine ⟨(C4_reset_amended _).1, ((C4_reset_amended _).2.1 ?_).1⟩
  show (2:ℚ) ≠ 1
  norm_num

/-- C9: with nonnegative weights and a positive unit-total constant, the
inverse calculator's breakdown coincides exactly with the forward calculator
applied to the implied charik count it returns. -/
theorem C9_inverse_coincides_forward (k : TozKey) (v : JSNum) (p : Percentages) (T : ℚ)
    (ha : 0 ≤ p.a) (hb : 0 ≤ p.b) (hc : 0 ≤ p.c) (hd : 0 ≤ p.d) (hT : 0 < T) :
    (calculateFromOneValue k v p T).toz
      = calculateFromCharikCount
          (JSNum.num (calculateFromOneValue k v p T).charikCount) p T :=
  (forward_of_inverse k v ha hb hc hd hT).symm

/-- Witness for C9: editing `b` to 78 with the Alt constants. -/
theorem C9_inverse_coincides_forward_witness :
    (calculateFromOneValue TozKey.b (JSNum.num 78) ALT_PERCENTAGES
        ALT_TOTAL_PER_CHARIK).toz
      = calculateFromCharikCount
          (JSNum.num (calculateFromOneValue TozKey.b (JSNum.num 78) ALT_PERCENTAGES
            ALT_TOTAL_PER_CHARIK).charikCount)
          ALT_PERCENTAGES ALT_TOTAL_PER_CHARIK :=
  C9_inverse_coincides_forward TozKey.b (JSNum.num 78) ALT_PERCENTAGES
    ALT_TOTAL_PER_CHARIK (by norm_num [ALT_PERCENTAGES]) (by norm_num [ALT_PERCENTAGES])
    (by norm_num [ALT_PERCENTAGES]) (by norm_num [ALT_PERCENTAGES])
    (by norm_num [ALT_TOTAL_PER_CHARIK])

lemma forward_fields_nonneg {p : Percentages} (ha : 0 ≤ p.a) (hb : 0 ≤ p.b)
    (hc : 0 ≤ p.c) (hd : 0 ≤ p.d) {T : ℚ} (hT : 0 ≤ T) (n : JSNum) :
    0 ≤ (calculateFromCharikCount n p T).a ∧ 0 ≤ (calculateFromCharikCount n p T).b ∧
    0 ≤ (calculateFromCharikCount n p T).c ∧ 0 ≤ (calculateFromCharikCount n p T).d ∧
    0 ≤ (calculateFromCharikCount n p T).total := by
  have ht : 0 ≤ T * sanitizeValue n := mul_nonneg hT (sanitizeValue_nonneg n)
  exact ⟨mul_nonneg ha ht, mul_nonneg hb ht, mul_nonneg hc ht, mul_nonneg hd ht, ht⟩

lemma inverse_fields_nonneg {p : Percentages} (ha : 0 ≤ p.a) (hb : 0 ≤ p.b)
    (hc : 0 ≤ p.c) (hd : 0 ≤ p.d) {T : ℚ} (hT : 0 ≤ T) (k : TozKey) (v : JSNum) :
    (0 ≤ (calculateFromOneValue k v p T).toz.a ∧
     0 ≤ (calculateFromOneValue k v p T).toz.b ∧
     0 ≤ (calculateFromOneValue k v p T).toz.c ∧
     0 ≤ (calculateFromOneValue k v p T).toz.d ∧
     0 ≤ (calculateFromOneValue k v p T).toz.total) ∧
    0 ≤ (calculateFromOneValue k v p T).charikCount := by
  have ht : 0 ≤ resolvedTotal k v p := resolvedTotal_nonneg k v ha hb hc hd
  refine ⟨⟨mul_nonneg ha ht, mul_nonneg hb ht, mul_nonneg hc ht, mul_nonneg hd ht, ht⟩, ?_⟩
  show 0 ≤ if T ≠ 0 then resolvedTotal k v p / T else 0
  split_ifs with h
  · exact div_nonneg ht hT
  · exact le_refl 0

/-- C10: with the program's fixed constants, every output of either calculator
is nonnegative — all five breakdown fields on every input (NaN and negative
included), plus the implied charik count of the inverse calculator — and the
zero-weight and zero-unit-total fallback guards never fire: all four component
weights of each set and both unit-total constants are nonzero. -/
theorem C10_outputs_nonneg :
    (∀ n : JSNum,
      0 ≤ (calculateFromCharikCount n ALT_PERCENTAGES ALT_TOTAL_PER_CHARIK).a ∧
      0 ≤ (calculateFromCharikCount n ALT_PERCENTAGES ALT_TOTAL_PER_CHARIK).b ∧
      0 ≤ (calculateFromCharikCount n ALT_PERCENTAGES ALT_TOTAL_PER_CHARIK).c ∧
      0 ≤ (calculateFromCharikCount n ALT_PERCENTAGES ALT_TOTAL_PER_CHARIK).d ∧
      0 ≤ (calculateFromCharikCount n ALT_PERCENTAGES ALT_TOTAL_PER_CHARIK).total) ∧
    (∀ n : JSNum,
      0 ≤ (calculateFromCharikCount n UST_PERCENTAGES UST_TOTAL_PER_CHARIK).a ∧
      0 ≤ (calculateFromCharikCount n UST_PERCENTAGES UST_TOTAL_PER_CHARIK).b ∧
      0 ≤ (calculateFromCharikCount n UST_PERCENTAGES UST_TOTAL_PER_CHARIK).c ∧
      0 ≤ (calculateFromCharikCount n UST_PERCENTAGES UST_TOTAL_PER_CHARIK).d ∧
      0 ≤ (calculateFromCharikCount n UST_PERCENTAGES UST_TOTAL_PER_CHARIK).total) ∧
    (∀ (k : TozKey) (v : JSNum),
      (0 ≤ (calculateFromOneValue k v ALT_PERCENTAGES ALT_TOTAL_PER_CHARIK).toz.a ∧
       0 ≤ (calculateFromOneValue k v ALT_PERCENTAGES ALT_TOTAL_PER_CHARIK).toz.b ∧
       0 ≤ (calculateFromOneValue k v ALT_PERCENTAGES ALT_TOTAL_PER_CHARIK).toz.c ∧
       0 ≤ (calculateFromOneValue k v ALT_PERCENTAGES ALT_TOTAL_PER_CHARIK).toz.d ∧
       0 ≤ (calculateFromOneValue k v ALT_PERCENTAGES ALT_TOTAL_PER_CHARIK).toz.total) ∧
      0 ≤ (calculateFromOneValue k v ALT_PERCENTAGES ALT_TOTAL_PER_CHARIK).charikCount) ∧
    (∀ (k : TozKey) (v : JSNum),
      (0 ≤ (calculateFromOneValue k v UST_PERCENTAGES UST_TOTAL_PER_CHARIK).toz.a ∧
       0 ≤ (calculateFromOneValue k v UST_PERCENTAGES UST_TOTAL_PER_CHARIK).toz.b ∧
       0 ≤ (calculateFromOneValue k v UST_PERCENTAGES UST_TOTAL_PER_CHARIK).toz.c ∧
       0 ≤ (calculateFromOneValue k v UST_PERCENTAGES UST_TOTAL_PER_CHARIK).toz.d ∧
       0 ≤ (calculateFromOneValue k v UST_PERCENTAGES UST_TOTAL_PER_CHARIK).toz.total) ∧
      0 ≤ (calculateFromOneValue k v UST_PERCENTAGES UST_TOTAL_PER_CHARIK).charikCount) ∧
    (ALT_PERCENTAGES.lookup TozKey.a ≠ 0 ∧ ALT_PERCENTAGES.lookup TozKey.b ≠ 0 ∧
     ALT_PERCENTAGES.lookup TozKey.c ≠ 0 ∧ ALT_PERCENTAGES.lookup TozKey.d ≠ 0) ∧
    (UST_PERCENTAGES.lookup TozKey.a ≠ 0 ∧ UST_PERCENTAGES.lookup TozKey.b ≠ 0 ∧
     UST_PERCENTAGES.lookup TozKey.c ≠ 0 ∧ UST_PERCENTAGES.lookup TozKey.d ≠ 0) ∧
    ALT_TOTAL_PER_CHARIK ≠ 0 ∧ UST_TOTAL_PER_CHARIK ≠ 0 := by
  refine ⟨fun n => forward_fields_nonneg (by norm_num [ALT_PERCENTAGES])
      (by norm_num [ALT_PERCENTAGES]) (by norm_num [ALT_PERCENTAGES])
      (by norm_num [ALT_PERCENTAGES]) (by norm_num [ALT_TOTAL_PER_CHARIK]) n,
    fun n => forward_fields_nonneg (by norm_num [UST_PERCENTAGES])
      (by norm_num [UST_PERCENTAGES]) (by norm_num [UST_PERCENTAGES])
      (by norm_num [UST_PERCENTAGES]) (by norm_num [UST_TOTAL_PER_CHARIK]) n,
    fun k v => inverse_fields_nonneg (by norm_num [ALT_PERCENTAGES])
      (by norm_num [ALT_PERCENTAGES]) (by norm_num [ALT_PERCENTAGES])
      (by norm_num [ALT_PERCENTAGES]) (by norm_num [ALT_TOTAL_PER_CHARIK]) k v,
    fun k v => inverse_fields_nonneg (by norm_num [UST_PERCENTAGES])
      (by norm_num [UST_PERCENTAGES]) (by norm_num [UST_PERCENTAGES])
      (by norm_num [UST_PERCENTAGES]) (by norm_num [UST_TOTAL_PER_CHARIK]) k v,
    ?_, ?_, ?_, ?_⟩
  · exact ⟨by norm_num [Percentages.lookup, ALT_PERCENTAGES],
      by norm_num [Percentages.lookup, ALT_PERCENTAGES],
      by norm_num [Percentages.lookup, ALT_PERCENTAGES],
      by norm_num [Percentages.lookup, ALT_PERCENTAGES]⟩
  · exact ⟨by norm_num [Percentages.lookup, UST_PERCENTAGES],
      by norm_num [Percentages.lookup, UST_PERCENTAGES],
      by norm_num [Percentages.lookup, UST_PERCENTAGES],
      by norm_num [Percentages.lookup, UST_PERCENTAGES]⟩
  · norm_num [ALT_TOTAL_PER_CHARIK]
  · norm_num [UST_TOTAL_PER_CHARIK]
